import Mathlib

/-
  Verification development for the text-embedder ingestion pipeline.

  Shallow embedding of the repository's core pipeline code:
    - src/text_embedder/embedder.py          (invoke_bedrock_embedding)
    - src/text_embedder/opensearch_client.py (create_index, index_exists, ensure_index)
    - src/text_embedder/processor.py         (process_file, embed_and_index)
    - src/text_embedder/utils.py             (fetch_s3_jsonl)
    - src/text_embedder/worker.py            (bootstrap_index, poll_loop, handle_message)

  External network effects (S3 reads, SQS receive/delete, DynamoDB puts,
  embedding-service invocations, OpenSearch HTTP calls) are modelled as
  explicit oracle arguments (functions returning `Except String _`) and as
  recorded actions in the returned outcome structures.  Embedding vectors are
  modelled as `List Int`: no claim depends on float arithmetic, only on vector
  structure and length.
-/

namespace TextEmbedder

/-- A decoded JSON value, as produced by Python's `json.loads`.  Objects keep
their fields in insertion order, mirroring Python dict iteration order. -/
inductive Json where
  | null
  | bool (b : Bool)
  | num (n : Int)
  | str (s : String)
  | arr (elems : List Json)
  | obj (fields : List (String × Json))

/-- Embedding vectors: the float entries are abstracted to integers. -/
abbrev Vec := List Int

/-- The document dict built in `embed_and_index`, as an ordered field list. -/
abbrev Document := List (String × Json)

/-- First binding of a key in an object's field list (Python dicts have unique
keys, so first-match lookup coincides with dict lookup). -/
def jlookup (k : String) : List (String × Json) → Option Json
  | [] => none
  | (k2, v) :: rest => if k2 = k then some v else jlookup k rest

/-- Python truthiness of a decoded JSON value (used by `page.get("id") or ...`). -/
def pyTruthy : Json → Bool
  | .null => false
  | .bool b => b
  | .num n => n != 0
  | .str s => !(s.isEmpty)
  | .arr xs => !(xs.isEmpty)
  | .obj kvs => !(kvs.isEmpty)

/-- Python `j[k]` subscription: `KeyError` on a missing key, `TypeError` when
the value is not a dict. -/
def pyGetItem (j : Json) (k : String) : Except String Json :=
  match j with
  | .obj kvs =>
    match jlookup k kvs with
    | some v => .ok v
    | none => .error ("KeyError: " ++ k)
  | _ => .error ("TypeError: value is not subscriptable by " ++ k)

/-- Python `dict.get(k, default)` on an object's field list. -/
def dictGet (kvs : List (String × Json)) (k : String) (dflt : Json) : Json :=
  match jlookup k kvs with
  | some v => v
  | none => dflt

/-- Python `json.loads` applied to an arbitrary value, as done at the top of
`embed_and_index`: parsing (the `loads` oracle) only applies to strings; any
non-string argument raises a `TypeError`. -/
def json_loads (loads : String → Except String Json) : Json → Except String Json
  | .str s => loads s
  | _ => .error "TypeError: the JSON object must be str, bytes or bytearray"

/-- Whether an `Except` result is a success. -/
def exceptIsOk {ε α : Type} : Except ε α → Bool
  | .ok _ => true
  | .error _ => false

/- ----------------------------------------------------------------
   embedder.py : invoke_bedrock_embedding (response-shape handling)
   ---------------------------------------------------------------- -/

/-- The fallback scan of `invoke_bedrock_embedding`:
`for key in data: if isinstance(data[key], list): return data[key]`. -/
def find_first_list : List (String × Json) → Option Json
  | [] => none
  | (_, Json.arr xs) :: _ => some (Json.arr xs)
  | _ :: rest => find_first_list rest

/-- Response-shape handling of `invoke_bedrock_embedding` over the decoded
response object `data` (the network call and JSON decode are abstracted into
the argument): try `data["embedding"]`, then `data["embeddings"]`, then the
first list-valued field, else raise the unexpected-response error. -/
def invoke_bedrock_embedding (data : List (String × Json)) : Except String Json :=
  match jlookup "embedding" data with
  | some v => .ok v
  | none =>
    match jlookup "embeddings" data with
    | some v => .ok v
    | none =>
      match find_first_list data with
      | some v => .ok v
      | none => .error "Unexpected bedrock response"

/- ----------------------------------------------------------------
   opensearch_client.py : create_index / index_exists / ensure_index
   ---------------------------------------------------------------- -/

/-- The index schema PUT by `create_index`: the mapping's property names and
the `knn_vector` dimension. -/
structure IndexSchema where
  mappingFields : List String
  embeddingDim : Nat
deriving DecidableEq

/-- State of the OpenSearch backend: the target index's schema, when the
index exists. -/
structure OSState where
  idx : Option IndexSchema
deriving DecidableEq

/-- Mutating requests issued against the OpenSearch backend. -/
inductive OSAction where
  | createIndex (schema : IndexSchema)
deriving DecidableEq

/-- `create_index`: builds the index body.  Its `dimension` comes from the
module-level config constant `BEDROCK_EMBEDDING_OUTPUT_DIM` (here the
`configDim` argument); the function takes no dimension parameter. -/
def create_index (configDim : Nat) : IndexSchema :=
  { mappingFields := ["file_key", "page_num", "text", "metadata", "embedding"],
    embeddingDim := configDim }

/-- Whether the target index exists in the backend state. -/
def index_exists (st : OSState) : Bool := st.idx.isSome

/-- The HEAD request of `index_exists`: when the transport and backend answer
cleanly (status 200 or 404, `headOk`), the state's truth is returned; any
other status raises a `RuntimeError`. -/
def index_exists_call (st : OSState) (headOk : Bool) : Except String Bool :=
  if headOk then .ok (index_exists st) else .error "Index existence check failed"

/-- The PUT request of `create_index`: on a 2xx status (`putOk`) the schema
built from the config constant is written; any other status raises a
`RuntimeError` and no state is committed. -/
def create_index_call (configDim : Nat) (putOk : Bool) :
    Except String (OSState × List OSAction) :=
  if putOk then
    .ok ({ idx := some (create_index configDim) }, [.createIndex (create_index configDim)])
  else .error "Index creation failed"

/-- `ensure_index(dimension)`: run the existence check (which can raise);
when the index exists, return after the check; otherwise call
`create_index()` (which can raise).  The `dimension` argument is only logged
by the source, never passed to `create_index`. -/
def ensure_index (configDim : Nat) (dimension : Nat) (st : OSState)
    (headOk putOk : Bool) : Except String (OSState × List OSAction) :=
  match index_exists_call st headOk with
  | .error e => .error e
  | .ok true => .ok (st, [])
  | .ok false => create_index_call configDim putOk

/- ----------------------------------------------------------------
   worker.py : bootstrap_index / poll_loop entry
   ---------------------------------------------------------------- -/

/-- `bootstrap_index`: probe the embedding model (`probe` is the outcome of
`invoke_embedding_model("bootstrap test")`), take the probed vector's length
as `dim`, and call `ensure_index(dim)`.  Both a probe failure and an
`ensure_index` failure are re-raised by the `except ... raise` clause. -/
def bootstrap_index (probe : Except String Vec) (configDim : Nat) (st : OSState)
    (headOk putOk : Bool) : Except String (Nat × OSState × List OSAction) :=
  match probe with
  | .error e => .error e
  | .ok v =>
    match ensure_index configDim v.length st headOk putOk with
    | .error e => .error e
    | .ok res => .ok (v.length, res)

/-- How `poll_loop` starts: either aborted by a bootstrap error before the
`while True` loop, or polling with the post-bootstrap backend state. -/
inductive PollStart where
  | aborted (err : String)
  | polling (st : OSState)

/-- The head of `poll_loop`: `await bootstrap_index()` before the loop; a
bootstrap exception propagates and the loop is never entered. -/
def poll_loop_start (probe : Except String Vec) (configDim : Nat) (st : OSState)
    (headOk putOk : Bool) : PollStart :=
  match bootstrap_index probe configDim st headOk putOk with
  | .error e => .aborted e
  | .ok res => .polling res.2.1

/-- An SQS message as consumed by `handle_message` (`Body`, `ReceiptHandle`). -/
structure QueueMsg where
  body : String
  receiptHandle : String

/-- Messages the poll loop ever receives, given the bootstrap outcome: none
when bootstrap aborted startup, otherwise whatever the queue delivers. -/
def poll_messages_received (probe : Except String Vec) (configDim : Nat)
    (st : OSState) (headOk putOk : Bool) (incoming : List QueueMsg) : List QueueMsg :=
  match poll_loop_start probe configDim st headOk putOk with
  | .aborted _ => []
  | .polling _ => incoming

/- ----------------------------------------------------------------
   processor.py : embed_and_index / process_file
   ---------------------------------------------------------------- -/

/-- DynamoDB batch status values written by `change_dynamodb_status`. -/
inductive Status where
  | processing
  | done
  | failed
deriving DecidableEq

/-- The `document` dict built in `embed_and_index`, field by field in source
order: `token_count`, `text`, `metadata` (default `{}`), `embedding`. -/
def build_document (kvs : List (String × Json)) (text : Json) (vector : Vec) :
    Document :=
  [("token_count", dictGet kvs "token_count" Json.null),
   ("text", text),
   ("metadata", dictGet kvs "metadata" (Json.obj [])),
   ("embedding", Json.arr (vector.map Json.num))]

/-- Field names of a document dict, in insertion order. -/
def doc_keys (d : Document) : List String := d.map Prod.fst

/-- One `embed_and_index(page)` task: `json.loads` the argument, read `text`
(default `""`), embed it (`embed` oracle), pick the document id
(`page.get("id") or str(uuid.uuid4())`, the fresh uuid being `freshId`), build
the document and index it (`indexResult` oracle).  Any exception makes the
task fail. -/
def embed_and_index (loads : String → Except String Json)
    (embed : Json → Except String Vec)
    (indexResult : Json → Document → Except String Unit)
    (freshId : String) (chunks : Json) : Except String (Json × Document) :=
  match json_loads loads chunks with
  | .error e => .error e
  | .ok (Json.obj kvs) =>
    let text := dictGet kvs "text" (Json.str "")
    match embed text with
    | .error e => .error e
    | .ok vector =>
      let given := dictGet kvs "id" Json.null
      let docId := if pyTruthy given then given else Json.str freshId
      let doc := build_document kvs text vector
      match indexResult docId doc with
      | .error e => .error e
      | .ok _ => .ok (docId, doc)
  | .ok _ => .error "AttributeError: value has no attribute get"

/-- The task-creation loop of `process_file`:
`for p in pages: tasks.append(create_task(embed_and_index(p['chunks'])))`.
Returns the `p['chunks']` arguments of the tasks created before the first
`p['chunks']` subscription error, and that error when one occurs. -/
def collect_chunks : List Json → List Json × Option String
  | [] => ([], none)
  | p :: ps =>
    match pyGetItem p "chunks" with
    | .error e => ([], some e)
    | .ok c =>
      let rest := collect_chunks ps
      (c :: rest.1, rest.2)

/-- Number of `embed_and_index` tasks `process_file` schedules for a batch. -/
def num_tasks_scheduled (pages : List Json) : Nat :=
  (collect_chunks pages).1.length

/-- Outcomes of the scheduled tasks, in order; the `i`-th task gets the fresh
uuid `fresh i` for its fallback document id. -/
def run_tasks (loads : String → Except String Json)
    (embed : Json → Except String Vec)
    (indexResult : Json → Document → Except String Unit)
    (fresh : Nat → String) : Nat → List Json → List (Except String (Json × Document))
  | _, [] => []
  | i, c :: cs =>
    embed_and_index loads embed indexResult (fresh i) c ::
      run_tasks loads embed indexResult fresh (i + 1) cs

/-- `errors = [r for r in results if isinstance(r, Exception)]`, counted. -/
def count_errors (rs : List (Except String (Json × Document))) : Nat :=
  (rs.filter (fun r => !exceptIsOk r)).length

/-- Documents (with their ids) successfully written by the tasks. -/
def indexed_docs (rs : List (Except String (Json × Document))) :
    List (Json × Document) :=
  rs.filterMap (fun r => match r with | .ok x => some x | .error _ => none)

/-- Observable outcome of one `process_file` call: the DynamoDB status writes
in order (status, optional `error` extra field), the documents left in the
index, and whether the call re-raised to its caller. -/
structure PFOutcome where
  statusWrites : List (Status × Option String)
  indexed : List (Json × Document)
  raised : Bool

/-- `process_file(s3_key)`: write `processing`; fetch and decode the batch
(`fetchResult` is the `fetch_s3_jsonl` outcome); create one task per decoded
record, passing `p['chunks']`; gather all task results without
short-circuiting; if any task failed write `failed` with the error-count
message and re-raise, else write `done`.  A fetch or chunks-subscription
error lands in the `except` clause: `failed` is written and the error
re-raised. -/
def process_file (loads : String → Except String Json)
    (embed : Json → Except String Vec)
    (indexResult : Json → Document → Except String Unit)
    (fresh : Nat → String)
    (fetchResult : Except String (List Json)) : PFOutcome :=
  match fetchResult with
  | .error e =>
    { statusWrites := [(Status.processing, none), (Status.failed, some e)],
      indexed := [], raised := true }
  | .ok pages =>
    match (collect_chunks pages).2 with
    | some e =>
      { statusWrites := [(Status.processing, none), (Status.failed, some e)],
        indexed := [], raised := true }
    | none =>
      let rs := run_tasks loads embed indexResult fresh 0 (collect_chunks pages).1
      if count_errors rs = 0 then
        { statusWrites := [(Status.processing, none), (Status.done, none)],
          indexed := indexed_docs rs, raised := false }
      else
        { statusWrites := [(Status.processing, none),
            (Status.failed,
              some (toString (count_errors rs) ++ " pages failed to embed/index"))],
          indexed := indexed_docs rs, raised := true }

/-- The batch's final status: the status of the last write performed. -/
def final_status (out : PFOutcome) : Option Status :=
  (out.statusWrites.map Prod.fst).getLast?

/- ----------------------------------------------------------------
   utils.py : fetch_s3_jsonl
   ---------------------------------------------------------------- -/

/-- Truthiness of Python's `l.strip()`: the line has a non-whitespace char. -/
def py_strip_nonempty (l : String) : Bool :=
  l.data.any (fun c => !c.isWhitespace)

/-- `json.loads` each line in order, propagating the first decode error, as
the list comprehension does. -/
def loads_lines (loads : String → Except String Json) :
    List String → Except String (List Json)
  | [] => .ok []
  | l :: ls =>
    match loads l with
    | .error e => .error e
    | .ok j =>
      match loads_lines loads ls with
      | .error e => .error e
      | .ok js => .ok (j :: js)

/-- `fetch_s3_jsonl`: over the decoded object body's lines,
`[json.loads(l) for l in lines if l.strip()]`. -/
def fetch_s3_jsonl (loads : String → Except String Json) (lines : List String) :
    Except String (List Json) :=
  loads_lines loads (lines.filter py_strip_nonempty)

/- ----------------------------------------------------------------
   worker.py : handle_message
   ---------------------------------------------------------------- -/

/-- Observable outcome of one `handle_message` call: whether the SQS delete
(acknowledgment) was issued, the status writes performed, and whether an
exception escaped the handler. -/
structure HMOutcome where
  deleteIssued : Bool
  statusWrites : List (Status × Option String)
  escaped : Bool

/-- `handle_message(msg)`: inside the `try`, `json.loads` the body, read
`payload["s3_key"]`, run `process_file`, then delete the message; any
exception is caught and logged, leaving the message un-acknowledged. -/
def handle_message (loads : String → Except String Json)
    (embed : Json → Except String Vec)
    (indexResult : Json → Document → Except String Unit)
    (fresh : Nat → String)
    (fetch : Json → Except String (List Json)) (msg : QueueMsg) : HMOutcome :=
  match loads msg.body with
  | .error _ => { deleteIssued := false, statusWrites := [], escaped := false }
  | .ok payload =>
    match pyGetItem payload "s3_key" with
    | .error _ => { deleteIssued := false, statusWrites := [], escaped := false }
    | .ok s3Key =>
      let out := process_file loads embed indexResult fresh (fetch s3Key)
      { deleteIssued := !out.raised, statusWrites := out.statusWrites,
        escaped := false }

/- ----------------------------------------------------------------
   Spec-side definition (refinement comparison for the task count)
   ---------------------------------------------------------------- -/

/-- Spec-side count of processing units, following the spec's words: each
decoded line is a record with a sub-array of processing units under its
chunks field; the total is the sum of the sub-array lengths. -/
def total_units_spec (pages : List Json) : Nat :=
  (pages.map (fun p =>
    match pyGetItem p "chunks" with
    | .ok (Json.arr units) => units.length
    | _ => 0)).sum

/- ----------------------------------------------------------------
   asyncio.Semaphore(CONCURRENCY) discipline (processor.py line 36,
   worker.py line 59): trace model of acquire/release around each
   guarded operation.
   ---------------------------------------------------------------- -/

/-- Phase of one task with respect to its `async with sem` block: not yet
entered, inside the block (the guarded embed/index work in flight), or done. -/
inductive TaskPhase where
  | pending
  | inflight
  | finished
deriving DecidableEq

/-- State of one semaphore and its tasks: free permits and each task's phase. -/
structure SemState where
  permits : Nat
  tasks : List TaskPhase
deriving DecidableEq

/-- Initial state: `asyncio.Semaphore(cap)` fresh, all `n` tasks created but
none yet inside its `async with sem` block. -/
def sem_init (cap n : Nat) : SemState :=
  { permits := cap, tasks := List.replicate n TaskPhase.pending }

/-- Whether a task is currently inside its `async with sem` block. -/
def isInflight : TaskPhase → Bool
  | .inflight => true
  | _ => false

/-- Number of tasks currently inside their `async with sem` block. -/
def inflight_count (st : SemState) : Nat :=
  (st.tasks.filter isInflight).length

/-- Scheduler steps: a pending task may enter its `async with sem` block only
when a permit is free (consuming it); a task inside the block may leave it
(releasing the permit).  This is exactly `asyncio.Semaphore` acquire/release
as used by `embed_and_index` and `handle_message`. -/
inductive SemStep : SemState → SemState → Prop where
  | acquire (st : SemState) (i : Nat) (hp : 0 < st.permits)
      (ht : st.tasks.get? i = some TaskPhase.pending) :
      SemStep st { permits := st.permits - 1, tasks := st.tasks.set i TaskPhase.inflight }
  | release (st : SemState) (i : Nat)
      (ht : st.tasks.get? i = some TaskPhase.inflight) :
      SemStep st { permits := st.permits + 1, tasks := st.tasks.set i TaskPhase.finished }

/-- States reachable by interleaving the tasks' acquire/release steps. -/
inductive SemReachable (cap n : Nat) : SemState → Prop where
  | init : SemReachable cap n (sem_init cap n)
  | step {s t : SemState} : SemReachable cap n s → SemStep s t → SemReachable cap n t

/- ----------------------------------------------------------------
   Concrete oracle instances used to exercise the model
   ---------------------------------------------------------------- -/

/-- Demo `json.loads` oracle: every line parses to a one-unit record. -/
def demoLoads : String → Except String Json :=
  fun s => .ok (.obj [("text", .str s)])

/-- Demo embedding oracle: always returns a 2-dimensional vector. -/
def demoEmbed : Json → Except String Vec := fun _ => .ok [1, 2]

/-- Demo index-write oracle: every upsert succeeds. -/
def demoIndex : Json → Document → Except String Unit := fun _ _ => .ok ()

/-- Demo fresh-uuid supply for the tasks. -/
def demoFresh : Nat → String := fun i => "fresh" ++ toString i

/-- Demo `json.loads` oracle that always fails to decode. -/
def demoLoadsBad : String → Except String Json := fun _ => .error "bad json"

/-- Demo batch-fetch oracle: every batch is empty. -/
def demoFetch : Json → Except String (List Json) := fun _ => .ok []

/- ----------------------------------------------------------------
   Helper lemmas
   ---------------------------------------------------------------- -/

theorem count_errors_eq_zero_iff (rs : List (Except String (Json × Document))) :
    count_errors rs = 0 ↔ ∀ r ∈ rs, exceptIsOk r = true := by
  simp [count_errors, List.length_eq_zero, List.filter_eq_nil_iff]

theorem filter_inflight_set_inflight (l : List TaskPhase) (i : Nat)
    (h : l.get? i = some TaskPhase.pending) :
    ((l.set i TaskPhase.inflight).filter isInflight).length
      = (l.filter isInflight).length + 1 := by
  induction l generalizing i with
  | nil => simp at h
  | cons a l ih =>
    cases i with
    | zero =>
      rw [List.get?_cons_zero] at h
      injection h with h
      subst h
      simp [List.set, List.filter, isInflight]
    | succ i =>
      rw [List.get?_cons_succ] at h
      have hrec := ih i h
      cases a <;> simp [List.set, List.filter_cons, isInflight, hrec]

theorem filter_inflight_set_finished (l : List TaskPhase) (i : Nat)
    (h : l.get? i = some TaskPhase.inflight) :
    (l.filter isInflight).length
      = ((l.set i TaskPhase.finished).filter isInflight).length + 1 := by
  induction l generalizing i with
  | nil => simp at h
  | cons a l ih =>
    cases i with
    | zero =>
      rw [List.get?_cons_zero] at h
      injection h with h
      subst h
      simp [List.set, List.filter, isInflight]
    | succ i =>
      rw [List.get?_cons_succ] at h
      have hrec := ih i h
      cases a <;> simp [List.set, List.filter_cons, isInflight, hrec]

theorem inflight_count_init (cap n : Nat) : inflight_count (sem_init cap n) = 0 := by
  induction n with
  | zero => rfl
  | succ n ih =>
    simp only [inflight_count, sem_init, List.replicate, List.filter_cons,
      isInflight] at *
    exact ih

theorem sem_step_invariant {cap : Nat} {s t : SemState} (hs : SemStep s t)
    (hinv : s.permits + inflight_count s = cap) :
    t.permits + inflight_count t = cap := by
  cases hs with
  | acquire i hp ht =>
    have hc := filter_inflight_set_inflight s.tasks i ht
    simp only [inflight_count] at *
    omega
  | release i ht =>
    have hc := filter_inflight_set_finished s.tasks i ht
    simp only [inflight_count] at *
    omega

theorem sem_invariant {cap n : Nat} {st : SemState} (h : SemReachable cap n st) :
    st.permits + inflight_count st = cap := by
  induction h with
  | init =>
    rw [inflight_count_init]
    simp [sem_init]
  | step hr hs ih => exact sem_step_invariant hs ih

/- ----------------------------------------------------------------
   Claims
   ---------------------------------------------------------------- -/

/-- Claim C4 (code bug witness): when the index is absent, bootstrap probes a
vector of length 3, yet the index gets created with the config constant
dimension 1536, not the probed dimension — the created schema's dimension
differs from the probed one, contradicting the claim. -/
theorem c4_bootstrap_dimension_bug :
    bootstrap_index (.ok [1, 2, 3]) 1536 { idx := none } true true
      = .ok (3, { idx := some (create_index 1536) },
             [OSAction.createIndex (create_index 1536)])
    ∧ (create_index 1536).embeddingDim = 1536
    ∧ (3 : Nat) ≠ 1536 :=
  ⟨rfl, rfl, by decide⟩

/-- Claim C7: if the bootstrap embedding probe fails, or the `ensure_index`
call raises (existence check or index creation), `bootstrap_index` re-raises
that error, `poll_loop` aborts with it before entering the polling loop, and
no message is ever received. -/
theorem c7_bootstrap_failure_aborts (probe : Except String Vec) (configDim : Nat)
    (st : OSState) (headOk putOk : Bool) (incoming : List QueueMsg) :
    (∀ e, probe = .error e →
        bootstrap_index probe configDim st headOk putOk = .error e)
    ∧ (∀ v e, probe = .ok v →
        ensure_index configDim v.length st headOk putOk = .error e →
        bootstrap_index probe configDim st headOk putOk = .error e)
    ∧ (∀ e, bootstrap_index probe configDim st headOk putOk = .error e →
        poll_loop_start probe configDim st headOk putOk = PollStart.aborted e
          ∧ poll_messages_received probe configDim st headOk putOk incoming = []) := by
  refine ⟨?_, ?_, ?_⟩
  · rintro e rfl
    rfl
  · rintro v e rfl hens
    simp [bootstrap_index, hens]
  · intro e hboot
    constructor
    · simp [poll_loop_start, hboot]
    · simp [poll_messages_received, poll_loop_start, hboot]

/-- Witness for C7: a failing existence check aborts startup before polling
and no message is received. -/
theorem c7_bootstrap_failure_aborts_witness :
    poll_loop_start (.ok [1]) 1536 { idx := none } false true
        = PollStart.aborted "Index existence check failed"
    ∧ poll_messages_received (.ok [1]) 1536 { idx := none } false true
        [{ body := "b", receiptHandle := "r" }] = [] :=
  (c7_bootstrap_failure_aborts (.ok [1]) 1536 { idx := none } false true
      [{ body := "b", receiptHandle := "r" }]).2.2 "Index existence check failed"
    ((c7_bootstrap_failure_aborts (.ok [1]) 1536 { idx := none } false true
        [{ body := "b", receiptHandle := "r" }]).2.1 [1]
      "Index existence check failed" rfl rfl)

/-- Claim C8: `ensure_index` is idempotent — when the index already exists
(and the existence check answers) it returns after the check with no
mutating action; and after any successful first call, a second call finds
the index present and changes nothing, issuing no create, whatever the PUT
would have answered. -/
theorem c8_ensure_index_idempotent (configDim dimension : Nat) (st : OSState)
    (headOk putOk : Bool) :
    (index_exists st = true → headOk = true →
        ensure_index configDim dimension st headOk putOk = .ok (st, []))
    ∧ (∀ st1 acts, ensure_index configDim dimension st headOk putOk = .ok (st1, acts) →
        ∀ putOk2, ensure_index configDim dimension st1 true putOk2 = .ok (st1, [])) := by
  constructor
  · intro h hh
    subst hh
    simp [ensure_index, index_exists_call, h]
  · intro st1 acts hfirst putOk2
    cases headOk with
    | false => simp [ensure_index, index_exists_call] at hfirst
    | true =>
      cases hex : index_exists st with
      | true =>
        simp [ensure_index, index_exists_call, hex] at hfirst
        rw [← hfirst.1]
        simp [ensure_index, index_exists_call, hex]
      | false =>
        cases putOk with
        | false => simp [ensure_index, index_exists_call, hex, create_index_call] at hfirst
        | true =>
          simp [ensure_index, index_exists_call, hex, create_index_call] at hfirst
          rw [← hfirst.1]
          simp [ensure_index, index_exists_call, index_exists, create_index_call]

/-- Witness for C8 at a concrete pre-existing index. -/
theorem c8_ensure_index_idempotent_witness :
    ensure_index 4 4 { idx := some (create_index 4) } true true
      = .ok ({ idx := some (create_index 4) }, []) :=
  (c8_ensure_index_idempotent 4 4 { idx := some (create_index 4) } true true).1 rfl rfl

/-- Claim C9: in the trace model of `asyncio.Semaphore(CONCURRENCY)` as used
around each unit-level embed/index operation (`embed_and_index`) and each
message handler (`handle_message`), every reachable state has at most
`CONCURRENCY` tasks inside their guarded block. -/
theorem c9_semaphore_bound (cap n : Nat) (st : SemState) (h : SemReachable cap n st) :
    inflight_count st ≤ cap := by
  have := sem_invariant h
  omega

/-- Witness for C9: with capacity 2 and 3 tasks, after one acquire step one
task is in flight, within the bound. -/
theorem c9_semaphore_bound_witness :
    inflight_count
      { permits := 1,
        tasks := [TaskPhase.inflight, TaskPhase.pending, TaskPhase.pending] } ≤ 2 :=
  c9_semaphore_bound 2 3 _
    (SemReachable.step SemReachable.init
      (SemStep.acquire (sem_init 2 3) 0 (by decide) (by decide)))

/-- Claim C3 (counterexample): a batch with one decoded line whose chunks
sub-array holds two processing units schedules one task, not two — the task
count follows the line count, not the unit count. -/
theorem c3_tasks_counterexample :
    num_tasks_scheduled
      [Json.obj [("chunks",
          Json.arr [Json.obj [("text", Json.str "a")], Json.obj [("text", Json.str "b")]])]] = 1
    ∧ total_units_spec
      [Json.obj [("chunks",
          Json.arr [Json.obj [("text", Json.str "a")], Json.obj [("text", Json.str "b")]])]] = 2
    ∧ (1 : Nat) ≠ 2 :=
  ⟨rfl, rfl, by decide⟩

/-- Claim C3 (amended): `process_file` schedules exactly one `embed_and_index`
task per decoded line (record) of the batch entry, passing the record's
chunks value whole, so the task count equals the number of decoded lines. -/
theorem c3_tasks_per_line (pages : List Json)
    (h : ∀ p ∈ pages, exceptIsOk (pyGetItem p "chunks") = true) :
    num_tasks_scheduled pages = pages.length := by
  induction pages with
  | nil => rfl
  | cons p ps ih =>
    have hp := h p (List.mem_cons_self p ps)
    cases hc : pyGetItem p "chunks" with
    | error e => rw [hc] at hp; simp [exceptIsOk] at hp
    | ok c =>
      have hrec := ih (fun q hq => h q (List.mem_cons_of_mem p hq))
      unfold num_tasks_scheduled at *
      simp [collect_chunks, hc, hrec]

/-- Witness for amended C3 at a concrete two-line batch. -/
theorem c3_tasks_per_line_witness :
    num_tasks_scheduled
      [Json.obj [("chunks", Json.str "a")], Json.obj [("chunks", Json.str "b")]] = 2 :=
  c3_tasks_per_line
    [Json.obj [("chunks", Json.str "a")], Json.obj [("chunks", Json.str "b")]]
    (by decide)

/-- Claim C5 (counterexample): a concretely processed unit yields a document
whose fields are token_count, text, metadata, embedding — it carries
`token_count`, which is not among the claimed field set, and never carries
`file_key` or `page_num`. -/
theorem c5_document_fields_counterexample :
    embed_and_index demoLoads demoEmbed demoIndex "f0" (Json.str "u")
      = .ok (Json.str "f0",
          [("token_count", Json.null), ("text", Json.str "u"), ("metadata", Json.obj []),
           ("embedding", Json.arr [Json.num 1, Json.num 2])])
    ∧ "token_count" ∉ (["file_key", "page_num", "text", "metadata", "embedding"] : List String) :=
  ⟨rfl, by decide⟩

/-- Claim C5 (amended): every successfully processed unit's document has
exactly the fields token_count, text, metadata, embedding, in that order,
built from the decoded unit and the returned vector; its identifier is the
unit's id when that id is truthy, otherwise the freshly generated one. -/
theorem c5_document_fields (L : String → Except String Json)
    (E : Json → Except String Vec) (I : Json → Document → Except String Unit)
    (freshId : String) (chunks docId : Json) (doc : Document)
    (h : embed_and_index L E I freshId chunks = .ok (docId, doc)) :
    doc_keys doc = ["token_count", "text", "metadata", "embedding"]
    ∧ ∃ kvs vector,
        json_loads L chunks = .ok (.obj kvs)
        ∧ E (dictGet kvs "text" (.str "")) = .ok vector
        ∧ doc = build_document kvs (dictGet kvs "text" (.str "")) vector
        ∧ docId = (if pyTruthy (dictGet kvs "id" Json.null) then dictGet kvs "id" Json.null
                   else Json.str freshId) := by
  unfold embed_and_index at h
  split at h
  · simp at h
  next kvs hkvs =>
    simp only [] at h
    split at h
    · simp at h
    next vector hE =>
      split at h
      · simp at h
      next u hI =>
        rw [Except.ok.injEq, Prod.mk.injEq] at h
        obtain ⟨hid, hdoc⟩ := h
        subst hid
        subst hdoc
        exact ⟨rfl, kvs, vector, hkvs, hE, rfl, rfl⟩
  · simp at h

/-- Witness for amended C5 at a concrete unit. -/
theorem c5_document_fields_witness :
    doc_keys [("token_count", Json.null), ("text", Json.str "u"), ("metadata", Json.obj []),
              ("embedding", Json.arr [Json.num 1, Json.num 2])]
      = ["token_count", "text", "metadata", "embedding"] :=
  (c5_document_fields demoLoads demoEmbed demoIndex "f0" (Json.str "u") (Json.str "f0")
    [("token_count", Json.null), ("text", Json.str "u"), ("metadata", Json.obj []),
     ("embedding", Json.arr [Json.num 1, Json.num 2])] rfl).1

/-- Claim C6: the response handling of `invoke_bedrock_embedding` prefers the
`embedding` field, then the `embeddings` field, then the first list-valued
field of the response object, and fails with the unexpected-response error
exactly when none of the three matches. -/
theorem c6_response_order (data : List (String × Json)) :
    (exceptIsOk (invoke_bedrock_embedding data) = false ↔
      jlookup "embedding" data = none ∧ jlookup "embeddings" data = none
        ∧ find_first_list data = none)
    ∧ (∀ v, jlookup "embedding" data = some v → invoke_bedrock_embedding data = .ok v)
    ∧ (∀ v, jlookup "embedding" data = none → jlookup "embeddings" data = some v →
        invoke_bedrock_embedding data = .ok v)
    ∧ (∀ v, jlookup "embedding" data = none → jlookup "embeddings" data = none →
        find_first_list data = some v → invoke_bedrock_embedding data = .ok v) := by
  cases h1 : jlookup "embedding" data with
  | some v => simp [invoke_bedrock_embedding, h1, exceptIsOk]
  | none =>
    cases h2 : jlookup "embeddings" data with
    | some v => simp [invoke_bedrock_embedding, h1, h2, exceptIsOk]
    | none =>
      cases h3 : find_first_list data with
      | some v => simp [invoke_bedrock_embedding, h1, h2, h3, exceptIsOk]
      | none => simp [invoke_bedrock_embedding, h1, h2, h3, exceptIsOk]

/-- Witness for C6: a response with no `embedding` field but an `embeddings`
field returns that field's value. -/
theorem c6_response_order_witness :
    invoke_bedrock_embedding [("foo", Json.num 1), ("embeddings", Json.arr [])]
      = .ok (Json.arr []) :=
  (c6_response_order [("foo", Json.num 1), ("embeddings", Json.arr [])]).2.2.1
    (Json.arr []) rfl rfl

/-- Claim C10: blank (empty or whitespace-only) lines of a batch entry are
skipped by `fetch_s3_jsonl`, so an entry of only blank lines decodes to a
zero-unit batch and `process_file` ends it with status done. -/
theorem c10_blank_lines_skipped (loads L : String → Except String Json)
    (E : Json → Except String Vec) (I : Json → Document → Except String Unit)
    (F : Nat → String) (lines : List String)
    (h : ∀ l ∈ lines, py_strip_nonempty l = false) :
    fetch_s3_jsonl loads lines = .ok []
    ∧ final_status (process_file L E I F (fetch_s3_jsonl loads lines)) = some Status.done := by
  have hf : lines.filter py_strip_nonempty = [] := by
    rw [List.filter_eq_nil_iff]
    intro a ha
    simp [h a ha]
  have hfetch : fetch_s3_jsonl loads lines = .ok [] := by
    unfold fetch_s3_jsonl
    rw [hf]
    rfl
  refine ⟨hfetch, ?_⟩
  rw [hfetch]
  rfl

/-- Witness for C10 at a concrete all-blank entry. -/
theorem c10_blank_lines_skipped_witness :
    fetch_s3_jsonl demoLoads ["", "   "] = .ok []
    ∧ final_status (process_file demoLoads demoEmbed demoIndex demoFresh
        (fetch_s3_jsonl demoLoads ["", "   "])) = some Status.done :=
  c10_blank_lines_skipped demoLoads demoLoads demoEmbed demoIndex demoFresh
    ["", "   "] (by decide)

/-- Claim C1 (counterexample): a batch entry with one record whose chunks
sub-array is empty holds zero processing units, yet the code creates one task
for the record, `json.loads` of the array argument raises a TypeError, and
the batch ends failed — where the claim requires a zero-unit batch to end
done. -/
theorem c1_zero_units_counterexample :
    total_units_spec [Json.obj [("chunks", Json.arr [])]] = 0
    ∧ final_status (process_file demoLoads demoEmbed demoIndex demoFresh
        (.ok [Json.obj [("chunks", Json.arr [])]])) = some Status.failed
    ∧ Status.failed ≠ Status.done :=
  ⟨rfl, rfl, by decide⟩

/-- Claim C1 (amended): for a batch whose records all decode (every scheduled
task got its chunks argument), the final status written by `process_file` is
done iff every scheduled task — one per decoded record, processing that
record's whole chunks value — embedded and indexed successfully; any task
failure makes the final status failed; the successfully indexed documents are
exactly the successful tasks' documents in either case; and a batch of zero
decoded records ends done. -/
theorem c1_pipeline_status (L : String → Except String Json)
    (E : Json → Except String Vec) (I : Json → Document → Except String Unit)
    (F : Nat → String) (pages cs : List Json)
    (h : collect_chunks pages = (cs, none)) :
    (final_status (process_file L E I F (.ok pages)) = some Status.done
        ↔ ∀ r ∈ run_tasks L E I F 0 cs, exceptIsOk r = true)
    ∧ ((∃ r ∈ run_tasks L E I F 0 cs, exceptIsOk r = false)
        → final_status (process_file L E I F (.ok pages)) = some Status.failed)
    ∧ (process_file L E I F (.ok pages)).indexed = indexed_docs (run_tasks L E I F 0 cs)
    ∧ (pages = [] → final_status (process_file L E I F (.ok pages)) = some Status.done) := by
  have h2 : (collect_chunks pages).2 = none := by rw [h]
  have h1 : (collect_chunks pages).1 = cs := by rw [h]
  have hpf : process_file L E I F (.ok pages)
      = (if count_errors (run_tasks L E I F 0 cs) = 0 then
          { statusWrites := [(Status.processing, none), (Status.done, none)],
            indexed := indexed_docs (run_tasks L E I F 0 cs), raised := false }
        else
          { statusWrites := [(Status.processing, none),
              (Status.failed,
                some (toString (count_errors (run_tasks L E I F 0 cs))
                  ++ " pages failed to embed/index"))],
            indexed := indexed_docs (run_tasks L E I F 0 cs), raised := true }) := by
    simp only [process_file]
    rw [h2, h1]
  rw [hpf]
  by_cases hc : count_errors (run_tasks L E I F 0 cs) = 0
  · rw [if_pos hc]
    refine ⟨⟨fun _ => (count_errors_eq_zero_iff _).1 hc, fun _ => rfl⟩, ?_, rfl, fun _ => rfl⟩
    rintro ⟨r, hr, hfalse⟩
    have := (count_errors_eq_zero_iff _).1 hc r hr
    rw [this] at hfalse
    cases hfalse
  · rw [if_neg hc]
    refine ⟨⟨?_, ?_⟩, fun _ => rfl, rfl, ?_⟩
    · intro hdone
      simp [final_status] at hdone
    · intro hall
      exact absurd ((count_errors_eq_zero_iff _).2 hall) hc
    · intro hpages
      subst hpages
      simp [collect_chunks] at h
      subst h
      exact absurd rfl hc

/-- Witness for C1: a one-record batch whose single task succeeds ends done. -/
theorem c1_pipeline_status_witness :
    final_status (process_file demoLoads demoEmbed demoIndex demoFresh
        (.ok [Json.obj [("chunks", Json.str "a")]])) = some Status.done :=
  (c1_pipeline_status demoLoads demoEmbed demoIndex demoFresh
      [Json.obj [("chunks", Json.str "a")]] [Json.str "a"] rfl).1.2
    (by decide)

/-- Claim C2: `handle_message` issues the SQS delete (acknowledgment) iff the
body decodes, the batch key is present, and the pipeline run did not raise;
on a decode failure (bad JSON or missing `s3_key`) no status write occurs and
no delete is issued; and no exception ever escapes the handler. -/
theorem c2_ack_iff_success (L : String → Except String Json)
    (E : Json → Except String Vec) (I : Json → Document → Except String Unit)
    (F : Nat → String) (fetch : Json → Except String (List Json)) (msg : QueueMsg) :
    ((handle_message L E I F fetch msg).deleteIssued = true ↔
      ∃ payload s3Key, L msg.body = .ok payload
        ∧ pyGetItem payload "s3_key" = .ok s3Key
        ∧ (process_file L E I F (fetch s3Key)).raised = false)
    ∧ (∀ e, L msg.body = .error e →
        (handle_message L E I F fetch msg).statusWrites = []
          ∧ (handle_message L E I F fetch msg).deleteIssued = false)
    ∧ (∀ payload e, L msg.body = .ok payload → pyGetItem payload "s3_key" = .error e →
        (handle_message L E I F fetch msg).statusWrites = []
          ∧ (handle_message L E I F fetch msg).deleteIssued = false)
    ∧ (handle_message L E I F fetch msg).escaped = false := by
  cases hb : L msg.body with
  | error e => simp [handle_message, hb]
  | ok payload =>
    cases hk : pyGetItem payload "s3_key" with
    | error e2 => simp [handle_message, hb, hk]
    | ok s3Key =>
      simp [handle_message, hb, hk]
      rintro payload2 e rfl hbad
      rw [hk] at hbad
      simp at hbad

/-- Witness for C2: a message whose body fails to decode is left
un-acknowledged with no status write and no escaping exception. -/
theorem c2_ack_iff_success_witness :
    (handle_message demoLoadsBad demoEmbed demoIndex demoFresh demoFetch
        ⟨"not json", "rh"⟩).statusWrites = []
    ∧ (handle_message demoLoadsBad demoEmbed demoIndex demoFresh demoFetch
        ⟨"not json", "rh"⟩).deleteIssued = false :=
  (c2_ack_iff_success demoLoadsBad demoEmbed demoIndex demoFresh demoFetch
      ⟨"not json", "rh"⟩).2.1 "bad json" rfl

end TextEmbedder

